import Mathlib

/-!
Shallow embedding of the Risk Scoring and Spatial Statistics engine of the
wa-environmental-platform repository (src/analysis/risk_scoring.py and
src/analysis/spatial_stats.py), together with proofs settling the frozen
claims about it.  Machine floats of the source are modelled by real numbers;
numpy exp/sqrt/trigonometric functions by their Mathlib counterparts, and
the scipy standard normal CDF by an explicit function parameter.
-/

open scoped Classical

noncomputable section

/-! ## Pollutant risk model (risk_scoring.py) -/

/-- EPA health based weights, RiskParameters.HEALTH_WEIGHTS: a Python dict
from pollutant name to weight; absent keys modelled by none. -/
def HEALTH_WEIGHTS (p : String) : Option ℝ :=
  if p = "PM2.5 Mass" then some 1
  else if p = "PM10 Mass" then some 0.6
  else if p = "Ozone" then some 0.8
  else if p = "SO2" then some 0.5
  else if p = "NO2" then some 0.4
  else if p = "CO" then some 0.3
  else none

/-- RiskParameters.REFERENCE_CONCENTRATIONS: per pollutant, the association
list of averaging period to reference concentration, in dict insertion
order.  The non numeric "unit" entry of the source dicts is omitted: the
source resolution step skips it explicitly. -/
def REFERENCE_CONCENTRATIONS (p : String) : Option (List (String × ℝ)) :=
  if p = "PM2.5 Mass" then some [("annual", 12), ("24hour", 35)]
  else if p = "PM10 Mass" then some [("24hour", 150)]
  else if p = "Ozone" then some [("8hour", 70)]
  else if p = "SO2" then some [("1hour", 75)]
  else if p = "NO2" then some [("1hour", 100), ("annual", 53)]
  else if p = "CO" then some [("1hour", 35), ("8hour", 9)]
  else none

/-- Reference concentration resolution of calculate_pollutant_risk_score:
exact averaging period match, else the "annual" entry, else the first
numeric value of the dict (insertion order). -/
def resolveReference (refs : List (String × ℝ)) (period : String) : Option ℝ :=
  match refs.lookup period with
  | some r => some r
  | none =>
    match refs.lookup "annual" with
    | some r => some r
    | none => (refs.map Prod.snd).head?

/-- calculate_pollutant_risk_score (risk_scoring.py lines 82-137): per
pollutant risk on the 0-100 scale.  Unknown pollutant, missing reference
table or unresolvable reference give 0.0. -/
def calculate_pollutant_risk_score (pollutant : String) (concentration : ℝ)
    (averaging_period : String) : ℝ :=
  match HEALTH_WEIGHTS pollutant with
  | none => 0
  | some health_weight =>
    match REFERENCE_CONCENTRATIONS pollutant with
    | none => 0
    | some ref_data =>
      match resolveReference ref_data averaging_period with
      | none => 0
      | some reference_conc =>
        let r := concentration / reference_conc
        let base_risk : ℝ :=
          if 1 < r then 50 + 50 * (1 - Real.exp (-2 * (r - 1))) else 50 * r
        min (base_risk * health_weight) 100

example : resolveReference [("annual", (12 : ℝ)), ("24hour", 35)] "24hour" = some 35 := rfl
example : resolveReference [("annual", (12 : ℝ)), ("24hour", 35)] "1hour" = some 12 := rfl
example : resolveReference [("1hour", (35 : ℝ)), ("8hour", 9)] "24hour" = some 35 := rfl
example : HEALTH_WEIGHTS "PM2.5 Mass" = some 1 := rfl

/-! ## Station level aggregation (risk_scoring.py lines 139-254) -/

/-- Environmental risk level categories (enum RiskLevel). -/
inductive RiskLevel where
  | LOW | MODERATE | HIGH | VERY_HIGH | HAZARDOUS
  deriving DecidableEq

/-- RiskParameters.RISK_THRESHOLDS, in dict insertion order: level with its
half open score bucket. -/
def RISK_THRESHOLDS : List (RiskLevel × ℝ × ℝ) :=
  [(RiskLevel.LOW, 0, 25), (RiskLevel.MODERATE, 25, 50), (RiskLevel.HIGH, 50, 75),
   (RiskLevel.VERY_HIGH, 75, 90), (RiskLevel.HAZARDOUS, 90, 100)]

/-- _get_risk_level (risk_scoring.py lines 411-416): first threshold bucket
with min_score <= s < max_score, falling back to HAZARDOUS. -/
def get_risk_level (s : ℝ) : RiskLevel :=
  match RISK_THRESHOLDS.find? (fun t => decide (t.2.1 ≤ s ∧ s < t.2.2)) with
  | some t => t.1
  | none => RiskLevel.HAZARDOUS

/-- Ascending insertion of a value into a sorted list of reals. -/
def insertSortedR (x : ℝ) : List ℝ → List ℝ
  | [] => [x]
  | y :: t => if x ≤ y then x :: y :: t else y :: insertSortedR x t

/-- Ascending insertion sort on reals, modelling the numpy sort underlying
np.percentile. -/
def sortR : List ℝ → List ℝ
  | [] => []
  | x :: t => insertSortedR x (sortR t)

/-- np.percentile(values, 95) with the default linear interpolation method:
with s the ascending sort of the values and h = 0.95 * (n - 1), the result
is s[floor h] + frac(h) * (s[floor h + 1] - s[floor h]).  Here
19 * (n - 1) = 20 * h, so floor h = k / 20 and frac h = (k % 20) / 20 for
k = 19 * (n - 1).  Out of range reads (only possible at the top index,
where the fractional part is 0) default to 0. -/
def percentile95 (values : List ℝ) : ℝ :=
  let s := sortR values
  let k := 19 * (s.length - 1)
  s.getD (k / 20) 0 + ((k % 20 : ℕ) : ℝ) / 20 * (s.getD (k / 20 + 1) 0 - s.getD (k / 20) 0)

/-- One step of the measurement grouping loop of
calculate_station_risk_score: append the value to the entry of its
parameter, creating the entry at the end on first sight (Python dicts
preserve insertion order). -/
def addMeas (acc : List (String × List ℝ)) (p : String) (v : ℝ) :
    List (String × List ℝ) :=
  if acc.any (fun pv => pv.1 == p) then
    acc.map (fun pv => if pv.1 == p then (pv.1, pv.2 ++ [v]) else pv)
  else acc ++ [(p, [v])]

/-- Grouping of the fetched (parameter, value) measurement rows by
parameter name (risk_scoring.py lines 187-194). -/
def groupByParam (ms : List (String × ℝ)) : List (String × List ℝ) :=
  ms.foldl (fun acc m => addMeas acc m.1 m.2) []

/-- Result record of calculate_station_risk_score.  components keeps, per
contributing parameter, its sub score; the source additionally reports
sample statistics and rounds the composite to two decimals for display,
which the claims do not touch. -/
structure StationRisk where
  risk_score : ℝ
  risk_level : RiskLevel
  data_availability : String
  components : List (String × ℝ)

/-- One iteration of the per parameter scoring loop: parameters with a
known health weight add (sub score * weight, weight) to the accumulated
(total_weighted_risk, total_weight); others are skipped. -/
def stationStep (acc : ℝ × ℝ) (pv : String × List ℝ) : ℝ × ℝ :=
  match HEALTH_WEIGHTS pv.1 with
  | some w =>
    (acc.1 + calculate_pollutant_risk_score pv.1 (percentile95 pv.2) "24hour" * w,
     acc.2 + w)
  | none => acc

/-- The fold of the per parameter scoring loop over the grouped
parameters. -/
def stationTotals (d : List (String × List ℝ)) : ℝ × ℝ :=
  d.foldl stationStep (0, 0)

/-- calculate_station_risk_score (risk_scoring.py lines 139-244) on the
grouped VALID measurements of the station, modelling the no measurement
early return, the weighted composite and the availability tag. -/
def calculate_station_risk_score (ms : List (String × ℝ)) : StationRisk :=
  if ms.isEmpty then
    { risk_score := 0, risk_level := RiskLevel.LOW,
      data_availability := "NO_DATA", components := [] }
  else
    let d := groupByParam ms
    let comps := d.filterMap (fun pv =>
      (HEALTH_WEIGHTS pv.1).map (fun _ =>
        (pv.1, calculate_pollutant_risk_score pv.1 (percentile95 pv.2) "24hour")))
    let t := stationTotals d
    let composite := if 0 < t.2 then t.1 / t.2 else 0
    { risk_score := composite, risk_level := get_risk_level composite,
      data_availability := if 2 ≤ comps.length then "GOOD" else "LIMITED",
      components := comps }

/-- Parameters of the grouped data that contribute to the composite: those
with a known health weight. -/
def contribParams (d : List (String × List ℝ)) : List (String × List ℝ) :=
  d.filter (fun pv => (HEALTH_WEIGHTS pv.1).isSome)

/-- Sum of score times health weight over the contributing parameters. -/
def weightedScoreSum (d : List (String × List ℝ)) : ℝ :=
  ((contribParams d).map (fun pv =>
    calculate_pollutant_risk_score pv.1 (percentile95 pv.2) "24hour" *
      (HEALTH_WEIGHTS pv.1).getD 0)).sum

/-- Sum of the health weights over the contributing parameters. -/
def weightSum (d : List (String × List ℝ)) : ℝ :=
  ((contribParams d).map (fun pv => (HEALTH_WEIGHTS pv.1).getD 0)).sum

/-! ## County aggregation (risk_scoring.py lines 256-342)

A station result as the county loop sees it: its reported risk score and,
when present, its data_availability value.  The exception branch of
calculate_station_risk_score (lines 246-254) returns a dict WITHOUT the
data_availability key, modelled by none. -/

structure StationResultDict where
  risk_score : ℝ
  data_availability : Option String

/-- Outcome of calculate_county_risk_score: either the aggregated record,
or the error payload (risk score 0.0) produced by the county level
exception handler. -/
inductive CountyOutcome where
  | ok (risk_score : ℝ) (data_availability : String) (station_count : ℕ)
  | errorResult (risk_score : ℝ)
  deriving DecidableEq

/-- The per station loop of calculate_county_risk_score (lines 292-319),
carrying (total_risk, valid_stations).  Reading data_availability from a
result dict that lacks the key raises KeyError, which the county level
try/except turns into the error payload. -/
def countyFold (rs : List StationResultDict) (total : ℝ) (count : ℕ) :
    CountyOutcome :=
  match rs with
  | [] =>
    if 0 < count then
      CountyOutcome.ok (total / count)
        (if 2 ≤ count then "GOOD" else "LIMITED") count
    else CountyOutcome.ok 0 "NO_DATA" 0
  | r :: rest =>
    match r.data_availability with
    | none => CountyOutcome.errorResult 0
    | some a =>
      if a ≠ "NO_DATA" then countyFold rest (total + r.risk_score) (count + 1)
      else countyFold rest total count

/-- calculate_county_risk_score over the nonempty list of per station
results (the empty station list is short circuited earlier to a
NO_STATIONS record the claims do not touch). -/
def calculate_county_risk_score (rs : List StationResultDict) : CountyOutcome :=
  countyFold rs 0 0

/-! ## Spatial weights builder (spatial_stats.py lines 67-113)

Stations are an ordered family of (x, y) = (longitude, latitude) coordinate
pairs.  The knn branch feeds np.radians of the coordinates to the sklearn
haversine metric (which reads its first feature as a latitude). -/

/-- np.radians: degrees to radians. -/
def toRadians (x : ℝ) : ℝ := x * Real.pi / 180

/-- The sklearn haversine metric on two feature pairs, as used by
NearestNeighbors(metric=haversine):
2 * arcsin(sqrt(sin((v1-u1)/2)^2 + cos u1 * cos v1 * sin((v2-u2)/2)^2)). -/
def haversineD (u v : ℝ × ℝ) : ℝ :=
  2 * Real.arcsin (Real.sqrt (Real.sin ((v.1 - u.1) / 2) ^ 2 +
    Real.cos u.1 * Real.cos v.1 * Real.sin ((v.2 - u.2) / 2) ^ 2))

/-- Pairwise station distance of the knn branch: haversine on the
coordinates converted to radians. -/
def stationDist {n : ℕ} (coords : Fin n → ℝ × ℝ) (i j : Fin n) : ℝ :=
  haversineD (toRadians (coords i).1, toRadians (coords i).2)
    (toRadians (coords j).1, toRadians (coords j).2)

/-- Neighbor ordering of the kneighbors query for center i: ascending
distance, ties broken by station index. -/
def neighborLe {n : ℕ} (coords : Fin n → ℝ × ℝ) (i j k : Fin n) : Prop :=
  stationDist coords i j < stationDist coords i k ∨
    (stationDist coords i j = stationDist coords i k ∧ j ≤ k)

/-- Ordered insertion for the neighbor sort of center i. -/
def insertNeighbor {n : ℕ} (coords : Fin n → ℝ × ℝ) (i a : Fin n) :
    List (Fin n) → List (Fin n)
  | [] => [a]
  | b :: t =>
    if neighborLe coords i a b then a :: b :: t
    else b :: insertNeighbor coords i a t

/-- Insertion sort of candidate neighbors of center i by distance. -/
def sortNeighbors {n : ℕ} (coords : Fin n → ℝ × ℝ) (i : Fin n) :
    List (Fin n) → List (Fin n)
  | [] => []
  | a :: t => insertNeighbor coords i a (sortNeighbors coords i t)

/-- NearestNeighbors(n_neighbors=min(k+1, n)).kneighbors for center i: the
min(k+1, n) nearest stations (the center itself included at distance 0),
by ascending distance. -/
def kneighbors {n : ℕ} (coords : Fin n → ℝ × ℝ) (k : ℕ) (i : Fin n) :
    List (Fin n) :=
  (sortNeighbors coords i (List.finRange n)).take (min (k + 1) n)

/-- The neighbors that update row i of the knn weight matrix: the
kneighbors list with its first element (self) skipped, keeping those at
positive distance (spatial_stats.py lines 93-98). -/
def rowUpdates {n : ℕ} (coords : Fin n → ℝ × ℝ) (k : ℕ) (i : Fin n) :
    List (Fin n) :=
  ((kneighbors coords k i).tail).filter (fun j => decide (0 < stationDist coords i j))

/-- One update of the knn loop: weights[i, j] = d and weights[j, i] =
weights[i, j]. -/
def applyPair {n : ℕ} (d : ℝ) (i j : Fin n) (W : Fin n → Fin n → ℝ) :
    Fin n → Fin n → ℝ :=
  fun a b => if (a = i ∧ b = j) ∨ (a = j ∧ b = i) then d else W a b

/-- The knn weights matrix BEFORE row normalization: the double loop of
inverse distance symmetric updates starting from the zero matrix. -/
def weightsPre {n : ℕ} (coords : Fin n → ℝ × ℝ) (k : ℕ) :
    Fin n → Fin n → ℝ :=
  (List.finRange n).foldl (fun W i =>
    (rowUpdates coords k i).foldl (fun W2 j =>
      applyPair (1 / stationDist coords i j) i j W2) W) (fun _ _ => 0)

/-- Planar Euclidean distance of the distance branch
(scipy.spatial.distance_matrix with p = 2, on raw degree coordinates). -/
def euclidD (u v : ℝ × ℝ) : ℝ :=
  Real.sqrt ((u.1 - v.1) ^ 2 + (u.2 - v.2) ^ 2)

/-- The distance method weights before row normalization: inverse Euclidean
distance where positive, zero diagonal. -/
def distWeightsPre {n : ℕ} (coords : Fin n → ℝ × ℝ) : Fin n → Fin n → ℝ :=
  fun i j => if i = j then 0
    else if 0 < euclidD (coords i) (coords j) then 1 / euclidD (coords i) (coords j)
    else 0

/-- Row sum of a weights matrix. -/
def rowSumW {n : ℕ} (W : Fin n → Fin n → ℝ) (i : Fin n) : ℝ := ∑ j, W i j

/-- Row normalization (spatial_stats.py lines 108-111): rows with positive
sum are divided by it, rows with sum 0 stay all zero. -/
def rowNormalize {n : ℕ} (W : Fin n → Fin n → ℝ) : Fin n → Fin n → ℝ :=
  fun i j => if 0 < rowSumW W i then W i j / rowSumW W i else 0

/-- Weight construction method of calculate_spatial_weights. -/
inductive WeightMethod where
  | knn | distance
  deriving DecidableEq

/-- calculate_spatial_weights (spatial_stats.py lines 67-113). -/
def calculate_spatial_weights {n : ℕ} (coords : Fin n → ℝ × ℝ)
    (method : WeightMethod) (k : ℕ) : Fin n → Fin n → ℝ :=
  match method with
  | WeightMethod.knn => rowNormalize (weightsPre coords k)
  | WeightMethod.distance => rowNormalize (distWeightsPre coords)

/-! ## Getis-Ord Gi star hotspot statistic (spatial_stats.py lines 115-196) -/

/-- SIGNIFICANCE_LEVELS: critical z values per confidence level. -/
def SIGNIFICANCE_LEVELS : List (String × ℝ) :=
  [("90%", 1.645), ("95%", 1.96), ("99%", 2.576)]

/-- Self inclusive weight row of station i: the row of the weights matrix
with the diagonal entry forced to 1.0 (Gi star versus Gi). -/
def giW {n : ℕ} (W : Fin n → Fin n → ℝ) (i : Fin n) : Fin n → ℝ :=
  fun j => if j = i then 1 else W i j

/-- local_sum of station i. -/
def giLocalSum {n : ℕ} (v : Fin n → ℝ) (W : Fin n → Fin n → ℝ) (i : Fin n) : ℝ :=
  ∑ j, giW W i j * v j

/-- sum_weights of station i. -/
def giSumW {n : ℕ} (W : Fin n → Fin n → ℝ) (i : Fin n) : ℝ :=
  ∑ j, giW W i j

/-- global_mean of the analyzed values. -/
def giMean {n : ℕ} (v : Fin n → ℝ) : ℝ := (∑ j, v j) / n

/-- s_squared: the population variance of the values. -/
def giS2 {n : ℕ} (v : Fin n → ℝ) : ℝ := (∑ j, (v j - giMean v) ^ 2) / n

/-- The Gi star variance of station i:
s_squared * (n * sum(w_i^2) - sum_weights^2) / (n - 1). -/
def giVar {n : ℕ} (v : Fin n → ℝ) (W : Fin n → Fin n → ℝ) (i : Fin n) : ℝ :=
  giS2 v * ((n : ℝ) * ∑ j, giW W i j ^ 2 - giSumW W i ^ 2) / ((n : ℝ) - 1)

/-- The z score of station i, following the branch structure of the source:
computed only when sum_weights > 0 and variance > 0, otherwise left at its
0 initialization. -/
def giZ {n : ℕ} (v : Fin n → ℝ) (W : Fin n → Fin n → ℝ) (i : Fin n) : ℝ :=
  if 0 < giSumW W i then
    if 0 < giVar v W i then
      (giLocalSum v W i - giMean v * giSumW W i) / Real.sqrt (giVar v W i)
    else 0
  else 0

/-- The two tailed p value of station i (Phi models scipy stats.norm.cdf),
left at its 0 initialization on the fallback branches. -/
def giP {n : ℕ} (Phi : ℝ → ℝ) (v : Fin n → ℝ) (W : Fin n → Fin n → ℝ)
    (i : Fin n) : ℝ :=
  if 0 < giSumW W i then
    if 0 < giVar v W i then 2 * (1 - Phi |giZ v W i|)
    else 0
  else 0

/-- The gi_statistics entry of station i: local_sum on the computed branch,
0 initialization otherwise. -/
def giStatVal {n : ℕ} (v : Fin n → ℝ) (W : Fin n → Fin n → ℝ) (i : Fin n) : ℝ :=
  if 0 < giSumW W i then
    if 0 < giVar v W i then giLocalSum v W i else 0
  else 0

/-- Hotspot classification (spatial_stats.py lines 179-187). -/
def giClassify (z critical : ℝ) : String :=
  if critical < |z| then
    if 0 < z then "HOT_SPOT" else "COLD_SPOT"
  else "NOT_SIGNIFICANT"

/-- Result dict of getis_ord_gi_star. -/
structure GiResult (n : ℕ) where
  gi_statistics : Fin n → ℝ
  z_scores : Fin n → ℝ
  p_values : Fin n → ℝ
  classifications : Fin n → String
  significance_level : String
  critical_value : ℝ

/-- getis_ord_gi_star (spatial_stats.py lines 115-196): none models the
empty dict returned for fewer than 3 stations.  Unknown significance keys
raise in the source; here the lookup defaults, and the theorems constrain
the key to the table. -/
def getis_ord_gi_star {n : ℕ} (v : Fin n → ℝ) (W : Fin n → Fin n → ℝ)
    (significance_level : String) (Phi : ℝ → ℝ) : Option (GiResult n) :=
  if n < 3 then none
  else
    let critical := (SIGNIFICANCE_LEVELS.lookup significance_level).getD 0
    some
      { gi_statistics := giStatVal v W
        z_scores := giZ v W
        p_values := giP Phi v W
        classifications := fun i => giClassify (giZ v W i) critical
        significance_level := significance_level
        critical_value := critical }

/-! ## Moran I spatial autocorrelation (spatial_stats.py lines 712-835) -/

/-- Sum of all weight matrix entries. -/
def wTotal {n : ℕ} (W : Fin n → Fin n → ℝ) : ℝ := ∑ i, ∑ j, W i j

/-- Moran I statistic: (n / w_sum) * (numerator / denominator) when the
denominator and weight sum are positive, else 0. -/
def moranI {n : ℕ} (v : Fin n → ℝ) (W : Fin n → Fin n → ℝ) : ℝ :=
  let mean := (∑ j, v j) / n
  let num := ∑ i, ∑ j, W i j * (v i - mean) * (v j - mean)
  let den := ∑ i, (v i - mean) ^ 2
  if 0 < den ∧ 0 < wTotal W then ((n : ℝ) / wTotal W) * (num / den) else 0

/-- expected_i = -1 / (n - 1). -/
def moranExpected (n : ℕ) : ℝ := -1 / ((n : ℝ) - 1)

/-- The simplified large sample variance:
(n^2 - 3n + 3) / ((n-1)(n-2)(n-3) w_sum^2). -/
def moranVariance {n : ℕ} (W : Fin n → Fin n → ℝ) : ℝ :=
  ((n : ℝ) ^ 2 - 3 * n + 3) /
    (((n : ℝ) - 1) * ((n : ℝ) - 2) * ((n : ℝ) - 3) * wTotal W ^ 2)

/-- Moran z score: (I - E) / sqrt(variance) when the variance is positive,
else 0. -/
def moranZ {n : ℕ} (v : Fin n → ℝ) (W : Fin n → Fin n → ℝ) : ℝ :=
  if 0 < moranVariance W then
    (moranI v W - moranExpected n) / Real.sqrt (moranVariance W)
  else 0

/-- Moran two tailed p value (Phi models scipy stats.norm.cdf). -/
def moranP {n : ℕ} (Phi : ℝ → ℝ) (v : Fin n → ℝ) (W : Fin n → Fin n → ℝ) : ℝ :=
  2 * (1 - Phi |moranZ v W|)

/-- The textual interpretation of spatial_autocorrelation_analysis
(spatial_stats.py lines 807-813). -/
def moranInterp {n : ℕ} (Phi : ℝ → ℝ) (v : Fin n → ℝ)
    (W : Fin n → Fin n → ℝ) : String :=
  if moranExpected n < moranI v W ∧ moranP Phi v W < 0.05 then
    "Positive spatial autocorrelation - clustered pattern"
  else if moranI v W < moranExpected n ∧ moranP Phi v W < 0.05 then
    "Negative spatial autocorrelation - dispersed pattern"
  else "Random spatial pattern"

/-- Concrete three station layout used to evaluate the knn weights: all on
the zero meridian as stored by the source (x = longitude first), latitudes
0, 30 and 90 degrees. -/
def coords3 : Fin 3 → ℝ × ℝ :=
  fun i => if i = 0 then (0, 0) else if i = 1 then (0, 30) else (0, 90)

/-! ## Theorems -/

/-- C9: the textual interpretation of the Moran I analysis is derived
exactly from sign and significance - clustered iff I > expected_I and
p < 0.05, dispersed iff I < expected_I and p < 0.05, random otherwise,
with expected_I = -1/(n-1). -/
theorem moran_interp_exact {n : ℕ} (Phi : ℝ → ℝ) (v : Fin n → ℝ)
    (W : Fin n → Fin n → ℝ) :
    (moranInterp Phi v W = "Positive spatial autocorrelation - clustered pattern" ↔
      moranExpected n < moranI v W ∧ moranP Phi v W < 0.05) ∧
    (moranInterp Phi v W = "Negative spatial autocorrelation - dispersed pattern" ↔
      moranI v W < moranExpected n ∧ moranP Phi v W < 0.05) ∧
    (moranInterp Phi v W = "Random spatial pattern" ↔
      ¬(moranExpected n < moranI v W ∧ moranP Phi v W < 0.05) ∧
      ¬(moranI v W < moranExpected n ∧ moranP Phi v W < 0.05)) ∧
    moranExpected n = -1 / ((n : ℝ) - 1) := by
  unfold moranInterp
  split_ifs with h1 h2
  · refine ⟨by simp [h1], ?_, by simp [h1], rfl⟩
    simp only [String.reduceEq, false_iff]
    rintro ⟨hlt, -⟩
    exact absurd h1.1 (lt_asymm hlt)
  · refine ⟨?_, by simp [h2], ?_, rfl⟩
    · simp only [String.reduceEq, false_iff]
      rintro ⟨hlt, -⟩
      exact absurd h2.1 (lt_asymm hlt)
    · simp only [String.reduceEq, false_iff]
      rintro ⟨-, hr⟩
      exact hr h2
  · exact ⟨by simp [h1], by simp [h2], by simp [h1, h2], rfl⟩

/-- C7: for every nonnegative score s, get_risk_level matches the unique
threshold bucket containing s, the top bucket also catching scores at or
above 100. -/
theorem risk_level_buckets (s : ℝ) (h0 : 0 ≤ s) :
    (s < 25 → get_risk_level s = RiskLevel.LOW) ∧
    (25 ≤ s → s < 50 → get_risk_level s = RiskLevel.MODERATE) ∧
    (50 ≤ s → s < 75 → get_risk_level s = RiskLevel.HIGH) ∧
    (75 ≤ s → s < 90 → get_risk_level s = RiskLevel.VERY_HIGH) ∧
    (90 ≤ s → get_risk_level s = RiskLevel.HAZARDOUS) := by
  unfold get_risk_level RISK_THRESHOLDS
  simp only [List.find?]
  refine ⟨fun ha => ?_, fun ha hb => ?_, fun ha hb => ?_, fun ha hb => ?_, fun ha => ?_⟩
  · rw [decide_eq_true (show (0 : ℝ) ≤ s ∧ s < 25 from ⟨h0, ha⟩)]
  · rw [decide_eq_false (fun h : (0 : ℝ) ≤ s ∧ s < 25 => by linarith [h.2]),
      decide_eq_true (show (25 : ℝ) ≤ s ∧ s < 50 from ⟨ha, hb⟩)]
  · rw [decide_eq_false (fun h : (0 : ℝ) ≤ s ∧ s < 25 => by linarith [h.2]),
      decide_eq_false (fun h : (25 : ℝ) ≤ s ∧ s < 50 => by linarith [h.2]),
      decide_eq_true (show (50 : ℝ) ≤ s ∧ s < 75 from ⟨ha, hb⟩)]
  · rw [decide_eq_false (fun h : (0 : ℝ) ≤ s ∧ s < 25 => by linarith [h.2]),
      decide_eq_false (fun h : (25 : ℝ) ≤ s ∧ s < 50 => by linarith [h.2]),
      decide_eq_false (fun h : (50 : ℝ) ≤ s ∧ s < 75 => by linarith [h.2]),
      decide_eq_true (show (75 : ℝ) ≤ s ∧ s < 90 from ⟨ha, hb⟩)]
  · rw [decide_eq_false (fun h : (0 : ℝ) ≤ s ∧ s < 25 => by linarith [h.2]),
      decide_eq_false (fun h : (25 : ℝ) ≤ s ∧ s < 50 => by linarith [h.2]),
      decide_eq_false (fun h : (50 : ℝ) ≤ s ∧ s < 75 => by linarith [h.2]),
      decide_eq_false (fun h : (75 : ℝ) ≤ s ∧ s < 90 => by linarith [h.2])]
    by_cases hc : s < 100
    · rw [decide_eq_true (show (90 : ℝ) ≤ s ∧ s < 100 from ⟨ha, hc⟩)]
    · rw [decide_eq_false (fun h : (90 : ℝ) ≤ s ∧ s < 100 => hc h.2)]

/-- Witness for C7 at the concrete score 30. -/
theorem risk_level_buckets_witness :
    (0 : ℝ) ≤ 30 ∧ get_risk_level 30 = RiskLevel.MODERATE := by
  refine ⟨by norm_num, (risk_level_buckets 30 (by norm_num)).2.1 (by norm_num) (by norm_num)⟩

/-- A successful association list lookup returns one of the stored values. -/
lemma lookup_mem_snd {α β : Type} [BEq α] {l : List (α × β)} {a : α} {b : β}
    (h : l.lookup a = some b) : b ∈ l.map Prod.snd := by
  induction l with
  | nil => cases h
  | cons q t ih =>
    obtain ⟨k, v⟩ := q
    simp only [List.lookup] at h
    cases hk : (a == k) with
    | true => rw [hk] at h; injection h with h2; subst h2; simp
    | false => rw [hk] at h; simpa using Or.inr (ih h)

/-- A resolved reference concentration is one of the stored values of the
reference table. -/
lemma resolveReference_mem {l : List (String × ℝ)} {period : String} {r : ℝ}
    (h : resolveReference l period = some r) : r ∈ l.map Prod.snd := by
  unfold resolveReference at h
  cases hl : l.lookup period with
  | some x => rw [hl] at h; injection h with h2; subst h2; exact lookup_mem_snd hl
  | none =>
    rw [hl] at h
    cases ha : l.lookup "annual" with
    | some x => rw [ha] at h; injection h with h2; subst h2; exact lookup_mem_snd ha
    | none =>
      rw [ha] at h
      simp only at h
      exact List.mem_of_mem_head? h

/-- Every reference concentration that resolveReference can return from the
static REFERENCE_CONCENTRATIONS table is positive. -/
lemma reference_pos {p period : String} {rd : List (String × ℝ)} {ref : ℝ}
    (h1 : REFERENCE_CONCENTRATIONS p = some rd)
    (h2 : resolveReference rd period = some ref) : 0 < ref := by
  have hm := resolveReference_mem h2
  unfold REFERENCE_CONCENTRATIONS at h1
  split_ifs at h1
  all_goals
    injection h1 with h3
  all_goals
    subst h3
  all_goals
    simp only [List.map_cons, List.map_nil] at hm
  all_goals
    fin_cases hm <;> norm_num

/-- Every known health weight of the static table lies in (0, 1]. -/
lemma health_weight_bounds {p : String} {w : ℝ}
    (h : HEALTH_WEIGHTS p = some w) : 0 < w ∧ w ≤ 1 := by
  unfold HEALTH_WEIGHTS at h
  split_ifs at h
  all_goals
    injection h with h2
  all_goals
    subst h2
  all_goals
    constructor <;> norm_num

/-- Unfolding of calculate_pollutant_risk_score on the fully resolved
path. -/
lemma score_eq {p : String} {w ref : ℝ} {rd : List (String × ℝ)}
    (period : String) (c : ℝ)
    (h1 : HEALTH_WEIGHTS p = some w) (h2 : REFERENCE_CONCENTRATIONS p = some rd)
    (h3 : resolveReference rd period = some ref) :
    calculate_pollutant_risk_score p c period =
      min ((if 1 < c / ref then 50 + 50 * (1 - Real.exp (-2 * (c / ref - 1)))
            else 50 * (c / ref)) * w) 100 := by
  unfold calculate_pollutant_risk_score
  simp only [h1, h2, h3]

/-- C1: for a pollutant with a known health weight and a resolved reference
concentration, the score is min(base * health_weight, 100) with
base = 50 + 50*(1 - exp(-2*(ratio - 1))) above the reference and
base = 50 * ratio below it; at the reference concentration the score is
exactly 50 * health_weight. -/
theorem pollutant_score_formula {p : String} {w ref : ℝ}
    {rd : List (String × ℝ)} (period : String) (c : ℝ)
    (h1 : HEALTH_WEIGHTS p = some w) (h2 : REFERENCE_CONCENTRATIONS p = some rd)
    (h3 : resolveReference rd period = some ref) :
    calculate_pollutant_risk_score p c period =
      min ((if 1 < c / ref then 50 + 50 * (1 - Real.exp (-2 * (c / ref - 1)))
            else 50 * (c / ref)) * w) 100 ∧
    calculate_pollutant_risk_score p ref period = 50 * w := by
  refine ⟨score_eq period c h1 h2 h3, ?_⟩
  rw [score_eq period ref h1 h2 h3, div_self (ne_of_gt (reference_pos h2 h3)),
    if_neg (lt_irrefl (1 : ℝ))]
  have hw := health_weight_bounds h1
  rw [min_eq_left (by nlinarith [hw.1, hw.2])]
  ring

/-- Witness for C1: PM2.5 at its 24-hour reference concentration 35 scores
exactly 50 times its health weight 1. -/
theorem pollutant_score_formula_witness :
    calculate_pollutant_risk_score "PM2.5 Mass" 35 "24hour" = 50 * 1 := by
  have h1 : HEALTH_WEIGHTS "PM2.5 Mass" = some 1 := rfl
  have h2 : REFERENCE_CONCENTRATIONS "PM2.5 Mass" =
      some [("annual", 12), ("24hour", 35)] := rfl
  have h3 : resolveReference [("annual", (12 : ℝ)), ("24hour", 35)] "24hour" =
      some 35 := rfl
  exact (pollutant_score_formula "24hour" 35 h1 h2 h3).2

/-- Counterexample to C3 as stated: at the negative concentration -35 the
PM2.5 24-hour score is negative, outside [0, 100]. -/
theorem pollutant_score_range_counterexample :
    calculate_pollutant_risk_score "PM2.5 Mass" (-35) "24hour" < 0 := by
  have h1 : HEALTH_WEIGHTS "PM2.5 Mass" = some 1 := rfl
  have h2 : REFERENCE_CONCENTRATIONS "PM2.5 Mass" =
      some [("annual", 12), ("24hour", 35)] := rfl
  have h3 : resolveReference [("annual", (12 : ℝ)), ("24hour", 35)] "24hour" =
      some 35 := rfl
  rw [score_eq "24hour" (-35) h1 h2 h3,
    show (-35 : ℝ) / 35 = -1 by norm_num, if_neg (by norm_num)]
  rw [min_eq_left (by norm_num)]
  norm_num

/-- The score of a pollutant without a health weight is 0. -/
lemma score_no_weight {p : String} (c : ℝ) (period : String)
    (h1 : HEALTH_WEIGHTS p = none) :
    calculate_pollutant_risk_score p c period = 0 := by
  unfold calculate_pollutant_risk_score
  simp only [h1]

/-- The score of a pollutant without a reference table is 0. -/
lemma score_no_refs {p : String} {w : ℝ} (c : ℝ) (period : String)
    (h1 : HEALTH_WEIGHTS p = some w) (h2 : REFERENCE_CONCENTRATIONS p = none) :
    calculate_pollutant_risk_score p c period = 0 := by
  unfold calculate_pollutant_risk_score
  simp only [h1, h2]

/-- The score is 0 when the reference concentration does not resolve. -/
lemma score_no_resolution {p : String} {w : ℝ} {rd : List (String × ℝ)}
    (c : ℝ) (period : String)
    (h1 : HEALTH_WEIGHTS p = some w) (h2 : REFERENCE_CONCENTRATIONS p = some rd)
    (h3 : resolveReference rd period = none) :
    calculate_pollutant_risk_score p c period = 0 := by
  unfold calculate_pollutant_risk_score
  simp only [h1, h2, h3]

/-- C3 (amended): for every nonnegative concentration the pollutant risk
score lies in [0, 100]. -/
theorem pollutant_score_in_range (p : String) (c : ℝ) (period : String)
    (hc : 0 ≤ c) :
    0 ≤ calculate_pollutant_risk_score p c period ∧
      calculate_pollutant_risk_score p c period ≤ 100 := by
  cases h1 : HEALTH_WEIGHTS p with
  | none => rw [score_no_weight c period h1]; norm_num
  | some w =>
    cases h2 : REFERENCE_CONCENTRATIONS p with
    | none => rw [score_no_refs c period h1 h2]; norm_num
    | some rd =>
      cases h3 : resolveReference rd period with
      | none => rw [score_no_resolution c period h1 h2 h3]; norm_num
      | some ref =>
        rw [score_eq period c h1 h2 h3]
        have hrefpos := reference_pos h2 h3
        have hw := health_weight_bounds h1
        have hr : 0 ≤ c / ref := div_nonneg hc (le_of_lt hrefpos)
        refine ⟨le_min ?_ (by norm_num), min_le_right _ _⟩
        refine mul_nonneg ?_ (le_of_lt hw.1)
        split_ifs with hgt
        · have hexp : Real.exp (-2 * (c / ref - 1)) ≤ 1 :=
            Real.exp_le_one_iff.mpr (by nlinarith)
          nlinarith
        · linarith

/-- Witness for C3 (amended) at PM2.5 concentration 35. -/
theorem pollutant_score_in_range_witness :
    0 ≤ calculate_pollutant_risk_score "PM2.5 Mass" 35 "24hour" ∧
      calculate_pollutant_risk_score "PM2.5 Mass" 35 "24hour" ≤ 100 :=
  pollutant_score_in_range "PM2.5 Mass" 35 "24hour" (by norm_num)

/-- The scoring loop fold computes the pair of sums over the contributing
parameters. -/
lemma stationTotals_aux (d : List (String × List ℝ)) (a b : ℝ) :
    d.foldl stationStep (a, b) = (a + weightedScoreSum d, b + weightSum d) := by
  induction d generalizing a b with
  | nil => simp [weightedScoreSum, weightSum, contribParams]
  | cons pv t ih =>
    rw [List.foldl_cons]
    cases hw : HEALTH_WEIGHTS pv.1 with
    | none =>
      have hstep : stationStep (a, b) pv = (a, b) := by unfold stationStep; rw [hw]
      rw [hstep, ih]
      unfold weightedScoreSum weightSum contribParams
      simp [hw]
    | some w =>
      have hstep : stationStep (a, b) pv =
          (a + calculate_pollutant_risk_score pv.1 (percentile95 pv.2) "24hour" * w,
           b + w) := by unfold stationStep; rw [hw]
      rw [hstep, ih]
      unfold weightedScoreSum weightSum contribParams
      simp only [List.filter_cons, hw, Option.isSome_some, if_true, List.map_cons,
        List.sum_cons, Option.getD_some, Prod.mk.injEq]
      constructor <;> ring

/-- The station totals are the contributing sums. -/
lemma stationTotals_eq (d : List (String × List ℝ)) :
    stationTotals d = (weightedScoreSum d, weightSum d) := by
  unfold stationTotals
  rw [stationTotals_aux]
  simp

/-- C2: whenever some grouped parameter contributes (positive total
weight), the station composite score is the health weight weighted average
of the per parameter scores, Sum(score_p * weight_p) / Sum(weight_p). -/
theorem station_composite_weighted_average (ms : List (String × ℝ))
    (h : 0 < weightSum (groupByParam ms)) :
    (calculate_station_risk_score ms).risk_score =
      weightedScoreSum (groupByParam ms) / weightSum (groupByParam ms) := by
  have hne : ¬ ms.isEmpty = true := by
    cases ms with
    | nil => norm_num [groupByParam, weightSum, contribParams] at h
    | cons x t => simp
  unfold calculate_station_risk_score
  rw [if_neg hne]
  simp only [stationTotals_eq]
  rw [if_pos h]

/-- Witness for C2 with a single PM2.5 measurement group. -/
theorem station_composite_weighted_average_witness :
    0 < weightSum (groupByParam [("PM2.5 Mass", 6)]) ∧
    (calculate_station_risk_score [("PM2.5 Mass", 6)]).risk_score =
      weightedScoreSum (groupByParam [("PM2.5 Mass", 6)]) /
        weightSum (groupByParam [("PM2.5 Mass", 6)]) := by
  have h : 0 < weightSum (groupByParam [("PM2.5 Mass", 6)]) := by
    norm_num [groupByParam, addMeas, weightSum, contribParams, HEALTH_WEIGHTS]
  exact ⟨h, station_composite_weighted_average [("PM2.5 Mass", 6)] h⟩

/-- C4: a station with no measurements gets composite 0.0, level LOW and
availability NO_DATA; otherwise availability is GOOD exactly when at least
two parameters contributed a sub score, else LIMITED. -/
theorem station_data_availability (ms : List (String × ℝ)) :
    (ms = [] → calculate_station_risk_score ms =
      { risk_score := 0, risk_level := RiskLevel.LOW,
        data_availability := "NO_DATA", components := [] }) ∧
    (ms ≠ [] → (calculate_station_risk_score ms).data_availability =
      (if 2 ≤ (calculate_station_risk_score ms).components.length then "GOOD"
       else "LIMITED")) := by
  constructor
  · rintro rfl
    rfl
  · intro hne
    have hne2 : ¬ ms.isEmpty = true := by simpa using hne
    unfold calculate_station_risk_score
    rw [if_neg hne2]

/-- Witness for C4: the empty station and a one parameter station. -/
theorem station_data_availability_witness :
    calculate_station_risk_score [] =
      { risk_score := 0, risk_level := RiskLevel.LOW,
        data_availability := "NO_DATA", components := [] } ∧
    (calculate_station_risk_score [("PM2.5 Mass", 6)]).data_availability =
      (if 2 ≤ (calculate_station_risk_score [("PM2.5 Mass", 6)]).components.length
       then "GOOD" else "LIMITED") := by
  refine ⟨(station_data_availability []).1 rfl, ?_⟩
  exact (station_data_availability [("PM2.5 Mass", 6)]).2 (by simp)

/-- C8 (code bug model): a county whose second station result is the
exception payload (no data_availability key) makes the county loop raise
KeyError, so the whole county aggregation returns the error record instead
of the mean of the remaining stations. -/
theorem county_error_dict_aborts_aggregation :
    calculate_county_risk_score
      [{ risk_score := 10, data_availability := some "GOOD" },
       { risk_score := 0, data_availability := none }] =
      CountyOutcome.errorResult 0 := by
  rfl

/-- With nonnegative matrix entries, the self inclusive weight row of any
station sums to at least 1 (the forced diagonal). -/
lemma one_le_giSumW {n : ℕ} {W : Fin n → Fin n → ℝ}
    (hW : ∀ a b, 0 ≤ W a b) (i : Fin n) : 1 ≤ giSumW W i := by
  unfold giSumW giW
  rw [← Finset.sum_erase_add _ _ (Finset.mem_univ i), if_pos rfl]
  have hnn : 0 ≤ ∑ j ∈ Finset.univ.erase i, (if j = i then (1 : ℝ) else W i j) :=
    Finset.sum_nonneg fun j hj => by
      rw [if_neg (Finset.ne_of_mem_erase hj)]
      exact hW i j
  linarith

/-- C10: for nonnegative weights the self inclusive row sum of every
station is at least 1, so the sum_weights > 0 branch of getis_ord_gi_star
is always taken and the z score and p value are given by the inner
variance test alone. -/
theorem gi_sum_weights_branch {n : ℕ} (Phi : ℝ → ℝ) (v : Fin n → ℝ)
    (W : Fin n → Fin n → ℝ) (hW : ∀ a b, 0 ≤ W a b) (i : Fin n) :
    1 ≤ giSumW W i ∧
    giZ v W i = (if 0 < giVar v W i then
      (giLocalSum v W i - giMean v * giSumW W i) / Real.sqrt (giVar v W i)
      else 0) ∧
    giP Phi v W i = (if 0 < giVar v W i then 2 * (1 - Phi |giZ v W i|) else 0) := by
  have h1 := one_le_giSumW hW i
  have hpos : 0 < giSumW W i := lt_of_lt_of_le zero_lt_one h1
  refine ⟨h1, ?_, ?_⟩
  · unfold giZ
    rw [if_pos hpos]
  · unfold giP
    rw [if_pos hpos]

/-- Witness for C10 on the zero 3 by 3 matrix. -/
theorem gi_sum_weights_branch_witness :
    (∀ a b : Fin 3, (0 : ℝ) ≤ (fun _ _ => (0 : ℝ)) a b) ∧
    1 ≤ giSumW (n := 3) (fun _ _ => 0) 0 :=
  ⟨fun _ _ => le_rfl,
    (gi_sum_weights_branch (fun _ => 1 / 2) (fun _ => 0) (fun _ _ => 0)
      (fun _ _ => le_rfl) 0).1⟩

/-- Every critical value of the SIGNIFICANCE_LEVELS table is positive. -/
lemma significance_critical_pos {lvl : String} {crit : ℝ}
    (h : SIGNIFICANCE_LEVELS.lookup lvl = some crit) : 0 < crit := by
  unfold SIGNIFICANCE_LEVELS at h
  simp only [List.lookup] at h
  cases h90 : (lvl == "90%") with
  | true => rw [h90] at h; injection h with h2; subst h2; norm_num
  | false =>
    rw [h90] at h
    cases h95 : (lvl == "95%") with
    | true => rw [h95] at h; injection h with h2; subst h2; norm_num
    | false =>
      rw [h95] at h
      cases h99 : (lvl == "99%") with
      | true => rw [h99] at h; injection h with h2; subst h2; norm_num
      | false => rw [h99] at h; cases h

/-- C5: for at least 3 stations, nonnegative weights and a confidence level
from the table (90% to 1.645, 95% to 1.96, 99% to 2.576), getis_ord_gi_star
classifies station i HOT_SPOT iff z > critical, COLD_SPOT iff
z < -critical and NOT_SIGNIFICANT otherwise, where z is
(local_sum - expected) / sqrt(variance) when the variance is positive and 0
otherwise. -/
theorem gi_classification (n : ℕ) (hn : 3 ≤ n) (v : Fin n → ℝ)
    (W : Fin n → Fin n → ℝ) (hW : ∀ a b, 0 ≤ W a b) (lvl : String) (crit : ℝ)
    (hl : SIGNIFICANCE_LEVELS.lookup lvl = some crit) (Phi : ℝ → ℝ) (i : Fin n) :
    ∃ res : GiResult n, getis_ord_gi_star v W lvl Phi = some res ∧
      res.critical_value = crit ∧
      SIGNIFICANCE_LEVELS.lookup "90%" = some 1.645 ∧
      SIGNIFICANCE_LEVELS.lookup "95%" = some 1.96 ∧
      SIGNIFICANCE_LEVELS.lookup "99%" = some 2.576 ∧
      (res.classifications i = "HOT_SPOT" ↔ crit < res.z_scores i) ∧
      (res.classifications i = "COLD_SPOT" ↔ res.z_scores i < -crit) ∧
      (res.classifications i = "NOT_SIGNIFICANT" ↔
        ¬ crit < res.z_scores i ∧ ¬ res.z_scores i < -crit) ∧
      res.z_scores i = (if 0 < giVar v W i then
        (giLocalSum v W i - giMean v * giSumW W i) / Real.sqrt (giVar v W i)
        else 0) := by
  have hc := significance_critical_pos hl
  have hres : getis_ord_gi_star v W lvl Phi = some
      { gi_statistics := giStatVal v W
        z_scores := giZ v W
        p_values := giP Phi v W
        classifications := fun j =>
          giClassify (giZ v W j) ((SIGNIFICANCE_LEVELS.lookup lvl).getD 0)
        significance_level := lvl
        critical_value := (SIGNIFICANCE_LEVELS.lookup lvl).getD 0 } := by
    unfold getis_ord_gi_star
    rw [if_neg (by omega)]
  rw [hl] at hres
  simp only [Option.getD_some] at hres
  refine ⟨_, hres, rfl, rfl, rfl, rfl, ?_, ?_, ?_, ?_⟩
  · show giClassify (giZ v W i) crit = "HOT_SPOT" ↔ crit < giZ v W i
    unfold giClassify
    split_ifs with habs hpos
    · simp only [true_iff, String.reduceEq, eq_self_iff_true]
      rw [abs_of_pos hpos] at habs
      simpa using habs
    · simp only [String.reduceEq, false_iff, not_lt]
      push_neg at hpos
      linarith
    · simp only [String.reduceEq, false_iff, not_lt]
      have := le_abs_self (giZ v W i)
      have := not_lt.mp habs
      linarith
  · show giClassify (giZ v W i) crit = "COLD_SPOT" ↔ giZ v W i < -crit
    unfold giClassify
    split_ifs with habs hpos
    · simp only [String.reduceEq, false_iff, not_lt]
      linarith
    · simp only [eq_self_iff_true, true_iff]
      push_neg at hpos
      rw [abs_of_nonpos hpos] at habs
      linarith
    · simp only [String.reduceEq, false_iff, not_lt]
      have := neg_abs_le (giZ v W i)
      have := not_lt.mp habs
      linarith
  · show giClassify (giZ v W i) crit = "NOT_SIGNIFICANT" ↔
      ¬ crit < giZ v W i ∧ ¬ giZ v W i < -crit
    unfold giClassify
    split_ifs with habs hpos
    · simp only [String.reduceEq, false_iff, not_and_or, not_not]
      left
      rw [abs_of_pos hpos] at habs
      simpa using habs
    · simp only [String.reduceEq, false_iff, not_and_or, not_not]
      right
      push_neg at hpos
      rw [abs_of_nonpos hpos] at habs
      linarith
    · have h2 := abs_le.mp (not_lt.mp habs)
      exact ⟨fun _ => ⟨not_lt.mpr h2.2, not_lt.mpr (by linarith [h2.1])⟩,
        fun _ => rfl⟩
  · show giZ v W i = _
    exact (gi_sum_weights_branch Phi v W hW i).2.1

/-- Witness for C5 with three stations, the zero matrix and the 95% level. -/
theorem gi_classification_witness :
    (3 : ℕ) ≤ 3 ∧ ∃ res : GiResult 3,
      getis_ord_gi_star (fun _ => (0 : ℝ)) (fun _ _ => (0 : ℝ)) "95%"
        (fun _ => 1 / 2) = some res ∧
      (res.classifications 0 = "HOT_SPOT" ↔ (1.96 : ℝ) < res.z_scores 0) := by
  refine ⟨le_refl 3, ?_⟩
  obtain ⟨res, h1, -, -, -, -, h2, -, -, -⟩ :=
    gi_classification 3 (le_refl 3) (fun _ => 0) (fun _ _ => 0)
      (fun _ _ => le_rfl) "95%" 1.96 rfl (fun _ => 1 / 2) 0
  exact ⟨res, h1, h2⟩

/-- A symmetric pair update preserves matrix symmetry: both mirror entries
receive the same value. -/
lemma applyPair_symm {n : ℕ} (d : ℝ) (i j : Fin n) (W : Fin n → Fin n → ℝ)
    (h : ∀ a b, W a b = W b a) (a b : Fin n) :
    applyPair d i j W a b = applyPair d i j W b a := by
  unfold applyPair
  by_cases hab : (a = i ∧ b = j) ∨ (a = j ∧ b = i)
  · rw [if_pos hab, if_pos (by tauto)]
  · rw [if_neg hab, if_neg (by tauto), h]

/-- Folding symmetric pair updates over a neighbor list preserves
symmetry. -/
lemma foldl_applyPair_symm {n : ℕ} (i : Fin n) (c : Fin n → ℝ)
    (l : List (Fin n)) (W : Fin n → Fin n → ℝ)
    (h : ∀ a b, W a b = W b a) (a b : Fin n) :
    (l.foldl (fun W2 j => applyPair (c j) i j W2) W) a b =
      (l.foldl (fun W2 j => applyPair (c j) i j W2) W) b a := by
  induction l generalizing W with
  | nil => exact h a b
  | cons j t ih =>
    simp only [List.foldl_cons]
    exact ih _ (fun a2 b2 => applyPair_symm (c j) i j W h a2 b2)

/-- C6 (amended): for every station list, the inverse distance knn weight
matrix built by calculate_spatial_weights is symmetric BEFORE the final row
normalization; the normalization divides rows by generally different row
sums, so the returned matrix need not be symmetric (see the
counterexample). -/
theorem knn_weights_symmetric_pre_normalization {n : ℕ}
    (coords : Fin n → ℝ × ℝ) (k : ℕ) (i j : Fin n) :
    weightsPre coords k i j = weightsPre coords k j i := by
  unfold weightsPre
  have outer : ∀ (l : List (Fin n)) (W : Fin n → Fin n → ℝ),
      (∀ a b, W a b = W b a) → ∀ a b,
      (l.foldl (fun W2 i2 =>
        (rowUpdates coords k i2).foldl (fun W3 j2 =>
          applyPair (1 / stationDist coords i2 j2) i2 j2 W3) W2) W) a b =
      (l.foldl (fun W2 i2 =>
        (rowUpdates coords k i2).foldl (fun W3 j2 =>
          applyPair (1 / stationDist coords i2 j2) i2 j2 W3) W2) W) b a := by
    intro l
    induction l with
    | nil => intro W h a b; exact h a b
    | cons i2 t ih =>
      intro W h a b
      simp only [List.foldl_cons]
      exact ih _ (fun a2 b2 =>
        foldl_applyPair_symm i2 (fun j2 => 1 / stationDist coords i2 j2)
          (rowUpdates coords k i2) W h a2 b2) a b
  exact outer (List.finRange n) (fun _ _ => 0) (fun _ _ => rfl) i j

/-- np.radians of 0 degrees. -/
lemma toRadians_zero : toRadians 0 = 0 := by
  unfold toRadians
  ring

/-- np.radians of 30 degrees. -/
lemma toRadians_30 : toRadians 30 = Real.pi / 6 := by
  unfold toRadians
  ring

/-- np.radians of 90 degrees. -/
lemma toRadians_90 : toRadians 90 = Real.pi / 2 := by
  unfold toRadians
  ring

/-- The haversine distance of a point to itself is 0. -/
lemma stationDist_self {n : ℕ} (coords : Fin n → ℝ × ℝ) (i : Fin n) :
    stationDist coords i i = 0 := by
  unfold stationDist haversineD
  simp

/-- The haversine metric is symmetric. -/
lemma haversineD_comm (u v : ℝ × ℝ) : haversineD u v = haversineD v u := by
  unfold haversineD
  have h : ∀ a b : ℝ, Real.sin ((a - b) / 2) ^ 2 = Real.sin ((b - a) / 2) ^ 2 := by
    intro a b
    rw [show (a - b) / 2 = -((b - a) / 2) by ring, Real.sin_neg]
    ring
  rw [h v.1 u.1, h v.2 u.2, mul_comm (Real.cos u.1) (Real.cos v.1)]

/-- Station distances are symmetric. -/
lemma stationDist_comm {n : ℕ} (coords : Fin n → ℝ × ℝ) (i j : Fin n) :
    stationDist coords i j = stationDist coords j i := by
  unfold stationDist
  exact haversineD_comm _ _

/-- On points sharing first feature 0, the haversine distance is the
difference of the second features (whenever the half difference lies in
[0, pi/2]). -/
lemma haversineD_same_first (a b : ℝ) (hb : 0 ≤ (b - a) / 2)
    (hb2 : (b - a) / 2 ≤ Real.pi / 2) :
    haversineD (0, a) (0, b) = b - a := by
  have hpi := Real.pi_pos
  have hsin : 0 ≤ Real.sin ((b - a) / 2) :=
    Real.sin_nonneg_of_nonneg_of_le_pi hb (by linarith)
  unfold haversineD
  norm_num
  rw [Real.sqrt_sq hsin, Real.arcsin_sin (by linarith) hb2]
  ring

lemma coords3_0 : coords3 0 = (0, 0) := rfl

lemma coords3_1 : coords3 1 = (0, 30) := rfl

lemma coords3_2 : coords3 2 = (0, 90) := rfl

/-- Distance between stations 0 and 1 of the concrete layout. -/
lemma dist01 : stationDist coords3 0 1 = Real.pi / 6 := by
  have hpi := Real.pi_pos
  show haversineD (toRadians 0, toRadians 0) (toRadians 0, toRadians 30) = Real.pi / 6
  rw [toRadians_zero, toRadians_30,
    haversineD_same_first 0 (Real.pi / 6) (by linarith) (by linarith)]
  ring

/-- Distance between stations 0 and 2 of the concrete layout. -/
lemma dist02 : stationDist coords3 0 2 = Real.pi / 2 := by
  have hpi := Real.pi_pos
  show haversineD (toRadians 0, toRadians 0) (toRadians 0, toRadians 90) = Real.pi / 2
  rw [toRadians_zero, toRadians_90,
    haversineD_same_first 0 (Real.pi / 2) (by linarith) (by linarith)]
  ring

/-- Distance between stations 1 and 2 of the concrete layout. -/
lemma dist12 : stationDist coords3 1 2 = Real.pi / 3 := by
  have hpi := Real.pi_pos
  show haversineD (toRadians 0, toRadians 30) (toRadians 0, toRadians 90) = Real.pi / 3
  rw [toRadians_zero, toRadians_30, toRadians_90,
    haversineD_same_first (Real.pi / 6) (Real.pi / 2) (by linarith) (by linarith)]
  ring

lemma dist10 : stationDist coords3 1 0 = Real.pi / 6 := by
  rw [stationDist_comm]
  exact dist01

lemma dist20 : stationDist coords3 2 0 = Real.pi / 2 := by
  rw [stationDist_comm]
  exact dist02

lemma dist21 : stationDist coords3 2 1 = Real.pi / 3 := by
  rw [stationDist_comm]
  exact dist12

lemma finRange3 : List.finRange 3 = [0, 1, 2] := by decide

/-- Neighbor sort around station 0. -/
lemma sortNeighbors3_0 : sortNeighbors coords3 0 [0, 1, 2] = [0, 1, 2] := by
  have hpi := Real.pi_pos
  have h12 : neighborLe coords3 0 1 2 := Or.inl (by rw [dist01, dist02]; linarith)
  have h01 : neighborLe coords3 0 0 1 :=
    Or.inl (by rw [stationDist_self, dist01]; linarith)
  simp [sortNeighbors, insertNeighbor, h01, h12]

/-- Neighbor sort around station 1. -/
lemma sortNeighbors3_1 : sortNeighbors coords3 1 [0, 1, 2] = [1, 0, 2] := by
  have hpi := Real.pi_pos
  have h112 : neighborLe coords3 1 1 2 :=
    Or.inl (by rw [stationDist_self, dist12]; linarith)
  have hn101 : ¬ neighborLe coords3 1 0 1 := by
    intro hcon
    unfold neighborLe at hcon
    rw [dist10, stationDist_self] at hcon
    rcases hcon with h | ⟨h, -⟩ <;> linarith
  have h102 : neighborLe coords3 1 0 2 := Or.inl (by rw [dist10, dist12]; linarith)
  simp [sortNeighbors, insertNeighbor, h112, hn101, h102]

/-- Neighbor sort around station 2. -/
lemma sortNeighbors3_2 : sortNeighbors coords3 2 [0, 1, 2] = [2, 1, 0] := by
  have hpi := Real.pi_pos
  have hn212 : ¬ neighborLe coords3 2 1 2 := by
    intro hcon
    unfold neighborLe at hcon
    rw [dist21, stationDist_self] at hcon
    rcases hcon with h | ⟨h, -⟩ <;> linarith
  have hn202 : ¬ neighborLe coords3 2 0 2 := by
    intro hcon
    unfold neighborLe at hcon
    rw [dist20, stationDist_self] at hcon
    rcases hcon with h | ⟨h, -⟩ <;> linarith
  have hn201 : ¬ neighborLe coords3 2 0 1 := by
    intro hcon
    unfold neighborLe at hcon
    rw [dist20, dist21] at hcon
    rcases hcon with h | ⟨h, -⟩ <;> linarith
  simp [sortNeighbors, insertNeighbor, hn212, hn202, hn201]

/-- Row update list of station 0. -/
lemma rowUpdates3_0 : rowUpdates coords3 4 0 = [1, 2] := by
  have hpi := Real.pi_pos
  have hp1 : 0 < stationDist coords3 0 1 := by rw [dist01]; linarith
  have hp2 : 0 < stationDist coords3 0 2 := by rw [dist02]; linarith
  unfold rowUpdates kneighbors
  rw [finRange3, sortNeighbors3_0]
  norm_num
  simp [List.filter_cons, decide_eq_true_eq, hp1, hp2]

/-- Row update list of station 1. -/
lemma rowUpdates3_1 : rowUpdates coords3 4 1 = [0, 2] := by
  have hpi := Real.pi_pos
  have hp0 : 0 < stationDist coords3 1 0 := by rw [dist10]; linarith
  have hp2 : 0 < stationDist coords3 1 2 := by rw [dist12]; linarith
  unfold rowUpdates kneighbors
  rw [finRange3, sortNeighbors3_1]
  norm_num
  simp [List.filter_cons, decide_eq_true_eq, hp0, hp2]

/-- Row update list of station 2. -/
lemma rowUpdates3_2 : rowUpdates coords3 4 2 = [1, 0] := by
  have hpi := Real.pi_pos
  have hp1 : 0 < stationDist coords3 2 1 := by rw [dist21]; linarith
  have hp0 : 0 < stationDist coords3 2 0 := by rw [dist20]; linarith
  unfold rowUpdates kneighbors
  rw [finRange3, sortNeighbors3_2]
  norm_num
  simp [List.filter_cons, decide_eq_true_eq, hp1, hp0]

/-- The pre normalization knn matrix of the concrete layout as an explicit
chain of pair updates. -/
lemma weightsPre_coords3 : weightsPre coords3 4 =
    applyPair (1 / stationDist coords3 2 0) 2 0
      (applyPair (1 / stationDist coords3 2 1) 2 1
        (applyPair (1 / stationDist coords3 1 2) 1 2
          (applyPair (1 / stationDist coords3 1 0) 1 0
            (applyPair (1 / stationDist coords3 0 2) 0 2
              (applyPair (1 / stationDist coords3 0 1) 0 1 (fun _ _ => 0)))))) := by
  unfold weightsPre
  rw [finRange3]
  simp only [List.foldl_cons, List.foldl_nil, rowUpdates3_0, rowUpdates3_1,
    rowUpdates3_2]

lemma weightsPre3_00 : weightsPre coords3 4 0 0 = 0 := by
  rw [weightsPre_coords3]
  rfl

lemma weightsPre3_01 : weightsPre coords3 4 0 1 = 1 / stationDist coords3 1 0 := by
  rw [weightsPre_coords3]
  rfl

lemma weightsPre3_02 : weightsPre coords3 4 0 2 = 1 / stationDist coords3 2 0 := by
  rw [weightsPre_coords3]
  rfl

lemma weightsPre3_10 : weightsPre coords3 4 1 0 = 1 / stationDist coords3 1 0 := by
  rw [weightsPre_coords3]
  rfl

lemma weightsPre3_11 : weightsPre coords3 4 1 1 = 0 := by
  rw [weightsPre_coords3]
  rfl

lemma weightsPre3_12 : weightsPre coords3 4 1 2 = 1 / stationDist coords3 2 1 := by
  rw [weightsPre_coords3]
  rfl

/-- Row sum of row 0 of the pre normalization matrix. -/
lemma rowSum3_0 : rowSumW (weightsPre coords3 4) 0 = 8 / Real.pi := by
  have hpi := Real.pi_pos
  unfold rowSumW
  rw [Fin.sum_univ_three, weightsPre3_00, weightsPre3_01, weightsPre3_02,
    dist10, dist20]
  field_simp
  ring

/-- Row sum of row 1 of the pre normalization matrix. -/
lemma rowSum3_1 : rowSumW (weightsPre coords3 4) 1 = 9 / Real.pi := by
  have hpi := Real.pi_pos
  unfold rowSumW
  rw [Fin.sum_univ_three, weightsPre3_10, weightsPre3_11, weightsPre3_12,
    dist10, dist21]
  field_simp
  ring

/-- Counterexample to C6 as stated: on the concrete three station layout
the row normalized knn matrix returned by calculate_spatial_weights has
entry (0,1) = 3/4 but entry (1,0) = 2/3, so it is not symmetric. -/
theorem knn_weights_not_symmetric_counterexample :
    calculate_spatial_weights coords3 WeightMethod.knn 4 0 1 ≠
      calculate_spatial_weights coords3 WeightMethod.knn 4 1 0 := by
  have hpi := Real.pi_pos
  have hpne : Real.pi ≠ 0 := ne_of_gt hpi
  have e01 : calculate_spatial_weights coords3 WeightMethod.knn 4 0 1 = 3 / 4 := by
    show rowNormalize (weightsPre coords3 4) 0 1 = 3 / 4
    unfold rowNormalize
    rw [rowSum3_0, if_pos (by positivity), weightsPre3_01, dist10]
    field_simp
    ring
  have e10 : calculate_spatial_weights coords3 WeightMethod.knn 4 1 0 = 2 / 3 := by
    show rowNormalize (weightsPre coords3 4) 1 0 = 2 / 3
    unfold rowNormalize
    rw [rowSum3_1, if_pos (by positivity), weightsPre3_10, dist10]
    field_simp
    ring
  rw [e01, e10]
  norm_num

end
